import Mathlib

/-
Verification development for the Modular Fleet Logistics Management System
(Django application, `project/core`).  The data model and the state-changing
operations are shallowly embedded from `models.py`, `views.py` and
`Serializers.py`: each Lean definition mirrors one Python function, with
Django querysets modelled as lists of records, `Decimal` fields as rationals
and dates as integer day numbers.  The theorems below settle the claims of
the natural-language specification against this embedding.
-/

namespace Fleet

/-- Vehicle.STATUS_CHOICES (models.py 70-75). -/
inductive VehicleStatus
  | available
  | on_trip
  | in_shop
  | retired
deriving DecidableEq, Repr

/-- Driver.STATUS_CHOICES (models.py 164-168). -/
inductive DriverStatus
  | off_duty
  | on_duty
  | suspended
deriving DecidableEq, Repr

/-- Trip.STATUS_CHOICES (models.py 240-245). -/
inductive TripStatus
  | draft
  | dispatched
  | completed
  | cancelled
deriving DecidableEq, Repr

/-- Maintenance.STATUS_CHOICES (models.py 388-392). -/
inductive MaintStatus
  | pending
  | in_progress
  | completed
deriving DecidableEq, Repr

/-- Error taxonomy of the spec (section 7); each constructor corresponds to
one ValidationError / early-return message in the source. -/
inductive FleetError
  | CapacityExceeded
  | LicenseExpired
  | DriverSuspended
  | VehicleBusy
  | VehicleUnavailable
  | InvalidTransition
  | DriverBusy
  | OdometerDecrease
  | NotFoundError
deriving DecidableEq, Repr

/-- Vehicle record (models.py 65-106); only the fields the business rules
read are kept.  Decimal fields are rationals, the primary key is `id`. -/
structure Vehicle where
  id : Nat
  capacity_kg : ℚ
  odometer_km : ℚ
  status : VehicleStatus
  acquisition_cost : ℚ
deriving DecidableEq, Repr

/-- Driver record (models.py 159-217); `license_expiry` is a day number. -/
structure Driver where
  id : Nat
  status : DriverStatus
  license_expiry : Int
deriving DecidableEq, Repr

/-- Trip record (models.py 235-270). -/
structure Trip where
  id : Nat
  vehicle_id : Nat
  driver_id : Nat
  cargo_weight_kg : ℚ
  revenue : ℚ
  distance_km : ℚ
  status : TripStatus
  completed_date : Option Int
deriving DecidableEq, Repr

/-- FuelLog record (models.py 337-365). -/
structure FuelLog where
  id : Nat
  vehicle_id : Nat
  liters : ℚ
  price_per_liter : ℚ
  total_cost : ℚ
deriving DecidableEq, Repr

/-- Maintenance record (models.py 371-408). -/
structure Maintenance where
  id : Nat
  vehicle_id : Nat
  status : MaintStatus
  cost : ℚ
  completed_date : Option Int
deriving DecidableEq, Repr

/-- The persisted store: one list per table, plus the current date
(`timezone.now().date()`). -/
structure FleetState where
  vehicles : List Vehicle
  drivers : List Driver
  trips : List Trip
  fuel_logs : List FuelLog
  maintenances : List Maintenance
  today : Int
deriving DecidableEq, Repr

/-- Queryset `Vehicle.objects.get(pk=vid)` as a list lookup. -/
def findVehicleIn (vs : List Vehicle) (vid : Nat) : Option Vehicle :=
  vs.find? (fun v => v.id == vid)

def findVehicle (s : FleetState) (vid : Nat) : Option Vehicle :=
  findVehicleIn s.vehicles vid

def findDriverIn (ds : List Driver) (did : Nat) : Option Driver :=
  ds.find? (fun d => d.id == did)

def findDriver (s : FleetState) (did : Nat) : Option Driver :=
  findDriverIn s.drivers did

def findTripIn (ts : List Trip) (tid : Nat) : Option Trip :=
  ts.find? (fun t => t.id == tid)

def findTrip (s : FleetState) (tid : Nat) : Option Trip :=
  findTripIn s.trips tid

def findMaintIn (ms : List Maintenance) (mid : Nat) : Option Maintenance :=
  ms.find? (fun m => m.id == mid)

def findMaint (s : FleetState) (mid : Nat) : Option Maintenance :=
  findMaintIn s.maintenances mid

/-- `Vehicle.objects.filter(pk=vid).update(status=st)`. -/
def setVehicleStatus (vs : List Vehicle) (vid : Nat) (st : VehicleStatus) : List Vehicle :=
  vs.map (fun v => if v.id == vid then { v with status := st } else v)

/-- `Driver.objects.filter(pk=did).update(status=st)`. -/
def setDriverStatus (ds : List Driver) (did : Nat) (st : DriverStatus) : List Driver :=
  ds.map (fun d => if d.id == did then { d with status := st } else d)

/-- `Trip.objects.filter(pk=tid).update(completed_date=d)`. -/
def stampTripCompleted (ts : List Trip) (tid : Nat) (d : Int) : List Trip :=
  ts.map (fun t => if t.id == tid then { t with completed_date := some d } else t)

/-- `Maintenance.objects.filter(pk=mid).update(completed_date=d)`. -/
def stampMaintCompleted (ms : List Maintenance) (mid : Nat) (d : Int) : List Maintenance :=
  ms.map (fun m => if m.id == mid then { m with completed_date := some d } else m)

/-- `super().save()` for a Trip: INSERT for a fresh row, UPDATE in place
for an existing one. -/
def upsertTrip (ts : List Trip) (t : Trip) (isNew : Bool) : List Trip :=
  if isNew then ts ++ [t] else ts.map (fun u => if u.id == t.id then t else u)

/-- `super().save()` for a Maintenance record. -/
def upsertMaint (ms : List Maintenance) (m : Maintenance) (isNew : Bool) : List Maintenance :=
  if isNew then ms ++ [m] else ms.map (fun u => if u.id == m.id then m else u)

/-- `vehicle.save()` on an existing vehicle: replace the stored row. -/
def setVehicle (vs : List Vehicle) (v : Vehicle) : List Vehicle :=
  vs.map (fun u => if u.id == v.id then v else u)

/-- `driver.save()` on an existing driver: replace the stored row. -/
def setDriver (ds : List Driver) (d : Driver) : List Driver :=
  ds.map (fun u => if u.id == d.id then d else u)

/-- Embedding of `Trip.clean` (models.py 280-306): cargo-capacity check,
driver-compliance check (for draft/dispatched), then vehicle-availability
check (for dispatched), in source order.  `pk` is `self.pk`: `none` for a
not-yet-saved trip.  The `on_trip` branch runs the duplicate-dispatch query
only when `self.pk` is truthy, exactly as the source does. -/
def tripClean (s : FleetState) (pk : Option Nat) (t : Trip) : Option FleetError :=
  match findVehicle s t.vehicle_id, findDriver s t.driver_id with
  | some vehicle, some driver =>
    if t.cargo_weight_kg ≠ 0 ∧ t.cargo_weight_kg > vehicle.capacity_kg then
      some FleetError.CapacityExceeded
    else if (t.status = TripStatus.draft ∨ t.status = TripStatus.dispatched)
        ∧ driver.license_expiry < s.today then
      some FleetError.LicenseExpired
    else if (t.status = TripStatus.draft ∨ t.status = TripStatus.dispatched)
        ∧ driver.status = DriverStatus.suspended then
      some FleetError.DriverSuspended
    else if t.status = TripStatus.dispatched then
      if vehicle.status = VehicleStatus.on_trip ∧ pk.isSome then
        if s.trips.any (fun u => u.vehicle_id == t.vehicle_id
            && u.status == TripStatus.dispatched && some u.id != pk) then
          some FleetError.VehicleBusy
        else
          none
      else if vehicle.status = VehicleStatus.in_shop ∨ vehicle.status = VehicleStatus.retired then
        some FleetError.VehicleUnavailable
      else
        none
    else
      none
  | _, _ => some FleetError.NotFoundError

/-- Embedding of `Trip.save` (models.py 308-331): `full_clean`, remember the
old status, write the row, then cascade the vehicle/driver status updates
and the server-side `completed_date` stamp. -/
def tripSave (s : FleetState) (t : Trip) (isNew : Bool) : Except FleetError FleetState :=
  let pk : Option Nat := if isNew then none else some t.id
  match tripClean s pk t with
  | some e => Except.error e
  | none =>
    let old_status : Option TripStatus :=
      if isNew then none else (findTrip s t.id).map Trip.status
    let s1 : FleetState := { s with trips := upsertTrip s.trips t isNew }
    let s2 : FleetState :=
      if t.status = TripStatus.dispatched ∧ old_status ≠ some TripStatus.dispatched then
        { s1 with vehicles := setVehicleStatus s1.vehicles t.vehicle_id VehicleStatus.on_trip,
                  drivers := setDriverStatus s1.drivers t.driver_id DriverStatus.on_duty }
      else s1
    let s3 : FleetState :=
      if (t.status = TripStatus.completed ∨ t.status = TripStatus.cancelled)
          ∧ old_status = some TripStatus.dispatched then
        let s2a : FleetState :=
          { s2 with vehicles := setVehicleStatus s2.vehicles t.vehicle_id VehicleStatus.available,
                    drivers := setDriverStatus s2.drivers t.driver_id DriverStatus.off_duty }
        if t.status = TripStatus.completed then
          { s2a with trips := stampTripCompleted s2a.trips t.id s.today }
        else s2a
      else s2
    Except.ok s3

/-- Body of a POST to `/api/trips/{id}/complete/`: the view reads only
`distance_km` and `revenue` from the request; any other key, such as a
client-supplied `completed_date`, is never consulted (views.py 313-327). -/
structure TripCompleteRequest where
  distance_km : Option ℚ
  revenue : Option ℚ
  completed_date : Option Int
deriving DecidableEq, Repr

/-- `TripViewSet.dispatch_trip` (views.py 296-310): only draft trips may be
dispatched; the save (and its `full_clean`) may still fail, which the view
surfaces as an error response. -/
def dispatchTrip (s : FleetState) (tid : Nat) : Except FleetError FleetState :=
  match findTrip s tid with
  | none => Except.error FleetError.NotFoundError
  | some trip =>
    if trip.status ≠ TripStatus.draft then Except.error FleetError.InvalidTransition
    else tripSave s { trip with status := TripStatus.dispatched } false

/-- `TripViewSet.complete_trip` (views.py 313-327): only dispatched trips may
be completed; `distance_km` and `revenue` are optionally overwritten from the
request before the save. -/
def completeTrip (s : FleetState) (tid : Nat) (req : TripCompleteRequest) :
    Except FleetError FleetState :=
  match findTrip s tid with
  | none => Except.error FleetError.NotFoundError
  | some trip =>
    if trip.status ≠ TripStatus.dispatched then Except.error FleetError.InvalidTransition
    else
      let t1 : Trip := match req.distance_km with
        | some dk => { trip with distance_km := dk }
        | none => trip
      let t2 : Trip := match req.revenue with
        | some r => { t1 with revenue := r }
        | none => t1
      tripSave s { t2 with status := TripStatus.completed } false

/-- `TripViewSet.cancel_trip` (views.py 330-339): only a completed trip is
refused; everything else is moved to cancelled and saved. -/
def cancelTrip (s : FleetState) (tid : Nat) : Except FleetError FleetState :=
  match findTrip s tid with
  | none => Except.error FleetError.NotFoundError
  | some trip =>
    if trip.status = TripStatus.completed then Except.error FleetError.InvalidTransition
    else tripSave s { trip with status := TripStatus.cancelled } false

/-- Incoming data of a trip create/update request; `none` means the field is
absent from the payload. -/
structure TripUpdateData where
  vehicle_id : Option Nat
  driver_id : Option Nat
  cargo_weight_kg : Option ℚ
  status : Option TripStatus
  revenue : Option ℚ
  distance_km : Option ℚ
deriving DecidableEq, Repr

/-- `TripDetailSerializer.validate` (Serializers.py 197-219): vehicle and
driver fall back to the instance when absent, `cargo_weight_kg` defaults to 0
and `status` to draft, then the cargo and driver-compliance checks run. -/
def tripSerializerValidate (s : FleetState) (inst : Option Trip) (d : TripUpdateData) :
    Option FleetError :=
  let vehicleId : Option Nat := match d.vehicle_id with
    | some i => some i
    | none => inst.map Trip.vehicle_id
  let driverId : Option Nat := match d.driver_id with
    | some i => some i
    | none => inst.map Trip.driver_id
  let cargo : ℚ := d.cargo_weight_kg.getD 0
  let st : TripStatus := d.status.getD TripStatus.draft
  let vErr : Option FleetError :=
    match vehicleId.bind (fun i => findVehicle s i) with
    | some vehicle =>
      if cargo ≠ 0 ∧ cargo > vehicle.capacity_kg then some FleetError.CapacityExceeded
      else none
    | none => none
  match vErr with
  | some e => some e
  | none =>
    match driverId.bind (fun i => findDriver s i) with
    | some driver =>
      if st = TripStatus.draft ∨ st = TripStatus.dispatched then
        if driver.license_expiry < s.today then some FleetError.LicenseExpired
        else if driver.status = DriverStatus.suspended then some FleetError.DriverSuspended
        else none
      else none
    | none => none

/-- Apply the supplied fields of an update payload onto the stored instance,
as `ModelSerializer.update` does before calling `instance.save()`. -/
def applyTripUpdate (t : Trip) (d : TripUpdateData) : Trip :=
  { t with
    vehicle_id := d.vehicle_id.getD t.vehicle_id,
    driver_id := d.driver_id.getD t.driver_id,
    cargo_weight_kg := d.cargo_weight_kg.getD t.cargo_weight_kg,
    status := d.status.getD t.status,
    revenue := d.revenue.getD t.revenue,
    distance_km := d.distance_km.getD t.distance_km }

/-- An ordinary PATCH/PUT of a trip through `TripViewSet`: serializer
validation (`TripDetailSerializer.validate`), then `Trip.save` on the merged
instance.  No transition-legality check exists on this path. -/
def tripUpdate (s : FleetState) (tid : Nat) (d : TripUpdateData) :
    Except FleetError FleetState :=
  match findTrip s tid with
  | none => Except.error FleetError.NotFoundError
  | some trip =>
    match tripSerializerValidate s (some trip) d with
    | some e => Except.error e
    | none => tripSave s (applyTripUpdate trip d) false

/-- A POST creating a trip through `TripViewSet` (TripCreateSerializer):
serializer validation with no instance, then `Trip.save` of the new row.
`t` carries the payload, including a caller-chosen initial status. -/
def tripCreate (s : FleetState) (t : Trip) : Except FleetError FleetState :=
  match tripSerializerValidate s none
      { vehicle_id := some t.vehicle_id, driver_id := some t.driver_id,
        cargo_weight_kg := some t.cargo_weight_kg, status := some t.status,
        revenue := some t.revenue, distance_km := some t.distance_km } with
  | some e => Except.error e
  | none => tripSave s t true

/-- Incoming data of a vehicle update request. -/
structure VehicleUpdateData where
  capacity_kg : Option ℚ
  odometer_km : Option ℚ
  status : Option VehicleStatus
  acquisition_cost : Option ℚ
deriving DecidableEq, Repr

def applyVehicleUpdate (v : Vehicle) (d : VehicleUpdateData) : Vehicle :=
  { v with
    capacity_kg := d.capacity_kg.getD v.capacity_kg,
    odometer_km := d.odometer_km.getD v.odometer_km,
    status := d.status.getD v.status,
    acquisition_cost := d.acquisition_cost.getD v.acquisition_cost }

/-- An ordinary PATCH/PUT of a vehicle through `VehicleViewSet`:
`VehicleDetailSerializer.validate_odometer_km` (Serializers.py 131-135)
rejects a decreasing odometer; `Vehicle.save` itself runs no clean, so no
other business check guards this path. -/
def vehicleUpdate (s : FleetState) (vid : Nat) (d : VehicleUpdateData) :
    Except FleetError FleetState :=
  match findVehicle s vid with
  | none => Except.error FleetError.NotFoundError
  | some v =>
    match d.odometer_km with
    | some o =>
      if o < v.odometer_km then Except.error FleetError.OdometerDecrease
      else Except.ok { s with vehicles := setVehicle s.vehicles (applyVehicleUpdate v d) }
    | none => Except.ok { s with vehicles := setVehicle s.vehicles (applyVehicleUpdate v d) }

/-- One request in a sequence of vehicle updates: a rejected update aborts
before writing, leaving the store unchanged. -/
def applyVehicleUpdateOp (s : FleetState) (op : Nat × VehicleUpdateData) : FleetState :=
  match vehicleUpdate s op.1 op.2 with
  | Except.ok s' => s'
  | Except.error _ => s

/-- A sequence of vehicle update requests, applied in order. -/
def runVehicleUpdates (s : FleetState) (ops : List (Nat × VehicleUpdateData)) : FleetState :=
  ops.foldl applyVehicleUpdateOp s

/-- `VehicleViewSet.retire` (views.py 164-174). -/
def retireVehicle (s : FleetState) (vid : Nat) : Except FleetError FleetState :=
  match findVehicle s vid with
  | none => Except.error FleetError.NotFoundError
  | some v =>
    if v.status = VehicleStatus.on_trip then Except.error FleetError.VehicleBusy
    else Except.ok
      { s with vehicles := setVehicle s.vehicles { v with status := VehicleStatus.retired } }

/-- `DriverViewSet.suspend` (views.py 247-257). -/
def suspendDriver (s : FleetState) (did : Nat) : Except FleetError FleetState :=
  match findDriver s did with
  | none => Except.error FleetError.NotFoundError
  | some d =>
    if d.status = DriverStatus.on_duty then Except.error FleetError.DriverBusy
    else Except.ok
      { s with drivers := setDriver s.drivers { d with status := DriverStatus.suspended } }

/-- `DriverViewSet.reinstate` (views.py 259-266): unconditional. -/
def reinstateDriver (s : FleetState) (did : Nat) : Except FleetError FleetState :=
  match findDriver s did with
  | none => Except.error FleetError.NotFoundError
  | some d =>
    Except.ok
      { s with drivers := setDriver s.drivers { d with status := DriverStatus.off_duty } }

/-- Embedding of `Maintenance.save` (models.py 418-437): write the row, send
the vehicle to the shop on creation in pending/in_progress, and on (first)
completion return the vehicle to available and stamp `completed_date` if it
is unset.  The vehicle updates are unconditional on the vehicle's own
status. -/
def maintenanceSave (s : FleetState) (m : Maintenance) (isNew : Bool) : FleetState :=
  let old_status : Option MaintStatus :=
    if isNew then none else (findMaint s m.id).map Maintenance.status
  let s1 : FleetState := { s with maintenances := upsertMaint s.maintenances m isNew }
  let s2 : FleetState :=
    if old_status = none ∧ (m.status = MaintStatus.pending ∨ m.status = MaintStatus.in_progress) then
      { s1 with vehicles := setVehicleStatus s1.vehicles m.vehicle_id VehicleStatus.in_shop }
    else s1
  let s3 : FleetState :=
    if m.status = MaintStatus.completed ∧ old_status ≠ some MaintStatus.completed then
      let s2a : FleetState :=
        { s2 with vehicles := setVehicleStatus s2.vehicles m.vehicle_id VehicleStatus.available }
      if m.completed_date = none then
        { s2a with maintenances := stampMaintCompleted s2a.maintenances m.id s.today }
      else s2a
    else s2
  s3

/-- A POST creating a maintenance record through `MaintenanceViewSet`
(views.py 391-409); `MaintenanceSerializer` imposes no status restriction, so
the payload's initial status is stored as-is. -/
def maintenanceCreate (s : FleetState) (m : Maintenance) : FleetState :=
  maintenanceSave s m true

/-- `MaintenanceViewSet.complete` (views.py 403-409). -/
def maintenanceComplete (s : FleetState) (mid : Nat) : Except FleetError FleetState :=
  match findMaint s mid with
  | none => Except.error FleetError.NotFoundError
  | some m => Except.ok (maintenanceSave s { m with status := MaintStatus.completed } false)

/-- The state produced by `Trip.save` when a stored dispatched trip is saved
as completed: row updated, vehicle freed, driver released, completed_date
stamped server-side with today. -/
def completedCascade (s : FleetState) (u : Trip) : FleetState :=
  { s with
    trips := stampTripCompleted (upsertTrip s.trips u false) u.id s.today,
    vehicles := setVehicleStatus s.vehicles u.vehicle_id VehicleStatus.available,
    drivers := setDriverStatus s.drivers u.driver_id DriverStatus.off_duty }

/-- The state produced by `Trip.save` when a stored draft trip is saved as
dispatched: row updated, vehicle locked, driver put on duty. -/
def dispatchedCascade (s : FleetState) (u : Trip) : FleetState :=
  { s with
    trips := upsertTrip s.trips u false,
    vehicles := setVehicleStatus s.vehicles u.vehicle_id VehicleStatus.on_trip,
    drivers := setDriverStatus s.drivers u.driver_id DriverStatus.on_duty }

/-- `Vehicle.total_fuel_cost` (models.py 127-130). -/
def totalFuelCost (s : FleetState) (vid : Nat) : ℚ :=
  ((s.fuel_logs.filter (fun f => f.vehicle_id == vid)).map FuelLog.total_cost).sum

/-- `Vehicle.total_maintenance_cost` (models.py 132-135). -/
def totalMaintenanceCost (s : FleetState) (vid : Nat) : ℚ :=
  ((s.maintenances.filter (fun m => m.vehicle_id == vid)).map Maintenance.cost).sum

/-- `Vehicle.total_operational_cost` (models.py 137-139). -/
def totalOperationalCost (s : FleetState) (vid : Nat) : ℚ :=
  totalFuelCost s vid + totalMaintenanceCost s vid

/-- `Vehicle.total_revenue` (models.py 141-144): completed trips only. -/
def totalRevenue (s : FleetState) (vid : Nat) : ℚ :=
  ((s.trips.filter (fun t => t.vehicle_id == vid && t.status == TripStatus.completed)).map
    Trip.revenue).sum

/-- Round to the nearest integer, ties to even — the behaviour of Python 3's
built-in `round`. -/
def roundHalfEven (q : ℚ) : ℤ :=
  let f : ℤ := ⌊q⌋
  if q - f < 1 / 2 then f
  else if q - f > 1 / 2 then f + 1
  else if f % 2 = 0 then f else f + 1

/-- Python `round(x, 2)`. -/
def round2 (q : ℚ) : ℚ := (roundHalfEven (q * 100) : ℚ) / 100

/-- `Vehicle.roi` (models.py 146-152): 0 when the acquisition cost is zero,
otherwise `round((net / acquisition_cost) * 100, 2)` with
`net = total_revenue - total_operational_cost`. -/
def roi (s : FleetState) (v : Vehicle) : ℚ :=
  if v.acquisition_cost = 0 then 0
  else round2 ((totalRevenue s v.id - totalOperationalCost s v.id) / v.acquisition_cost * 100)

/-- Number of dispatched trips currently stored for a vehicle. -/
def dispatchedCount (s : FleetState) (vid : Nat) : Nat :=
  (s.trips.filter (fun t => t.vehicle_id == vid && t.status == TripStatus.dispatched)).length

/-- Concrete fixture for C8: a compliant off_duty driver. -/
def dC8 : Driver := { id := 7, status := DriverStatus.off_duty, license_expiry := 40 }

def sC8 : FleetState :=
  { vehicles := [], drivers := [dC8], trips := [], fuel_logs := [], maintenances := [],
    today := 10 }

/-- Concrete fixture for C2: vehicle 1 is on_trip and trip 1 on it is
dispatched. -/
def sC2 : FleetState :=
  { vehicles := [{ id := 1, capacity_kg := 1000, odometer_km := 0,
                   status := VehicleStatus.on_trip, acquisition_cost := 0 }],
    drivers := [{ id := 1, status := DriverStatus.on_duty, license_expiry := 100 }],
    trips := [{ id := 1, vehicle_id := 1, driver_id := 1, cargo_weight_kg := 0,
                revenue := 0, distance_km := 0, status := TripStatus.dispatched,
                completed_date := none }],
    fuel_logs := [], maintenances := [], today := 0 }

/-- A fresh trip posted directly with initial status dispatched on the busy
vehicle 1. -/
def tC2 : Trip :=
  { id := 2, vehicle_id := 1, driver_id := 1, cargo_weight_kg := 0, revenue := 0,
    distance_km := 0, status := TripStatus.dispatched, completed_date := none }

/-- Concrete fixture for C3: a completed trip. -/
def tC3 : Trip :=
  { id := 1, vehicle_id := 1, driver_id := 1, cargo_weight_kg := 0, revenue := 0,
    distance_km := 0, status := TripStatus.completed, completed_date := some 5 }

def sC3 : FleetState :=
  { vehicles := [{ id := 1, capacity_kg := 1000, odometer_km := 0,
                   status := VehicleStatus.available, acquisition_cost := 0 }],
    drivers := [{ id := 1, status := DriverStatus.off_duty, license_expiry := 100 }],
    trips := [tC3], fuel_logs := [], maintenances := [], today := 10 }

/-- An ordinary update payload that only changes the status field. -/
def updC3 : TripUpdateData :=
  { vehicle_id := none, driver_id := none, cargo_weight_kg := none,
    status := some TripStatus.draft, revenue := none, distance_km := none }

/-- Concrete fixture for C5's counterexample: a completed trip whose cargo
exceeds its vehicle's capacity. -/
def sC5 : FleetState :=
  { vehicles := [{ id := 1, capacity_kg := 300, odometer_km := 0,
                   status := VehicleStatus.available, acquisition_cost := 0 }],
    drivers := [{ id := 1, status := DriverStatus.off_duty, license_expiry := 100 }],
    trips := [{ id := 1, vehicle_id := 1, driver_id := 1, cargo_weight_kg := 500,
                revenue := 0, distance_km := 0, status := TripStatus.completed,
                completed_date := some 3 }],
    fuel_logs := [], maintenances := [], today := 10 }

/-- Concrete fixture for C5's witness: a draft trip whose cargo exceeds its
vehicle's capacity. -/
def vC5w : Vehicle :=
  { id := 1, capacity_kg := 300, odometer_km := 0, status := VehicleStatus.available,
    acquisition_cost := 0 }

def dC5w : Driver := { id := 1, status := DriverStatus.off_duty, license_expiry := 100 }

def tC5w : Trip :=
  { id := 1, vehicle_id := 1, driver_id := 1, cargo_weight_kg := 500, revenue := 0,
    distance_km := 0, status := TripStatus.draft, completed_date := none }

def sC5w : FleetState :=
  { vehicles := [vC5w], drivers := [dC5w], trips := [tC5w], fuel_logs := [],
    maintenances := [], today := 10 }

/-- Concrete fixture for C1: a free vehicle, a compliant driver and two
draft trips on the same vehicle. -/
def vC1 : Vehicle :=
  { id := 1, capacity_kg := 1000, odometer_km := 0, status := VehicleStatus.available,
    acquisition_cost := 0 }

def dC1 : Driver := { id := 1, status := DriverStatus.off_duty, license_expiry := 100 }

def tC1 : Trip :=
  { id := 1, vehicle_id := 1, driver_id := 1, cargo_weight_kg := 500, revenue := 0,
    distance_km := 0, status := TripStatus.draft, completed_date := none }

def tC1b : Trip :=
  { id := 2, vehicle_id := 1, driver_id := 1, cargo_weight_kg := 300, revenue := 0,
    distance_km := 0, status := TripStatus.draft, completed_date := none }

def sC1 : FleetState :=
  { vehicles := [vC1], drivers := [dC1], trips := [tC1, tC1b], fuel_logs := [],
    maintenances := [], today := 0 }

/-- Concrete fixture for C1's counterexample: a draft trip whose cargo
exceeds capacity while vehicle and driver satisfy every availability and
compliance condition of the claim. -/
def sC1x : FleetState :=
  { vehicles := [{ id := 1, capacity_kg := 300, odometer_km := 0,
                   status := VehicleStatus.available, acquisition_cost := 0 }],
    drivers := [{ id := 1, status := DriverStatus.off_duty, license_expiry := 100 }],
    trips := [{ id := 1, vehicle_id := 1, driver_id := 1, cargo_weight_kg := 500,
                revenue := 0, distance_km := 0, status := TripStatus.draft,
                completed_date := none }],
    fuel_logs := [], maintenances := [], today := 0 }

/-- Concrete fixture for C4's counterexample: a dispatched trip whose cargo
exceeds its vehicle's capacity (reachable by shrinking the capacity after
dispatch, since vehicle updates validate only the odometer). -/
def vC4 : Vehicle :=
  { id := 1, capacity_kg := 300, odometer_km := 0, status := VehicleStatus.on_trip,
    acquisition_cost := 0 }

def dC4 : Driver := { id := 1, status := DriverStatus.on_duty, license_expiry := 100 }

def tC4 : Trip :=
  { id := 1, vehicle_id := 1, driver_id := 1, cargo_weight_kg := 500, revenue := 0,
    distance_km := 0, status := TripStatus.dispatched, completed_date := none }

def sC4 : FleetState :=
  { vehicles := [vC4], drivers := [dC4], trips := [tC4], fuel_logs := [],
    maintenances := [], today := 9 }

/-- A complete request supplying nothing. -/
def reqC4none : TripCompleteRequest :=
  { distance_km := none, revenue := none, completed_date := none }

/-- Concrete fixture for C4's witness: a well-formed dispatched trip 1, a
draft trip 2, and a request that also tries to supply completed_date. -/
def vC4w : Vehicle :=
  { id := 1, capacity_kg := 1000, odometer_km := 0, status := VehicleStatus.on_trip,
    acquisition_cost := 0 }

def dC4w : Driver := { id := 1, status := DriverStatus.on_duty, license_expiry := 100 }

def tC4w : Trip :=
  { id := 1, vehicle_id := 1, driver_id := 1, cargo_weight_kg := 500, revenue := 0,
    distance_km := 0, status := TripStatus.dispatched, completed_date := none }

def tC4w2 : Trip :=
  { id := 2, vehicle_id := 1, driver_id := 1, cargo_weight_kg := 0, revenue := 0,
    distance_km := 0, status := TripStatus.draft, completed_date := none }

def sC4w : FleetState :=
  { vehicles := [vC4w], drivers := [dC4w], trips := [tC4w, tC4w2], fuel_logs := [],
    maintenances := [], today := 7 }

def reqC4w : TripCompleteRequest :=
  { distance_km := some 150, revenue := some 2000, completed_date := some 999 }

/-- Concrete fixture for C6: a retired vehicle and a fresh pending
maintenance record for it. -/
def sC6 : FleetState :=
  { vehicles := [{ id := 1, capacity_kg := 1000, odometer_km := 0,
                   status := VehicleStatus.retired, acquisition_cost := 0 }],
    drivers := [], trips := [], fuel_logs := [], maintenances := [], today := 50 }

def mC6 : Maintenance :=
  { id := 1, vehicle_id := 1, status := MaintStatus.pending, cost := 0,
    completed_date := none }

/-- Concrete fixture for C7: a vehicle at odometer 100 and a sequence of two
updates, the second of which attempts to roll the odometer back. -/
def vC7 : Vehicle :=
  { id := 1, capacity_kg := 10, odometer_km := 100, status := VehicleStatus.available,
    acquisition_cost := 0 }

def sC7 : FleetState :=
  { vehicles := [vC7], drivers := [], trips := [], fuel_logs := [], maintenances := [],
    today := 0 }

def opsC7 : List (Nat × VehicleUpdateData) :=
  [(1, { capacity_kg := none, odometer_km := some 150, status := none,
         acquisition_cost := none }),
   (1, { capacity_kg := none, odometer_km := some 120, status := none,
         acquisition_cost := none })]

def vC7fin : Vehicle := { vC7 with odometer_km := 150 }

/-- An update request that attempts to roll vehicle 1's odometer back to
50. -/
def updC7back : VehicleUpdateData :=
  { capacity_kg := none, odometer_km := some 50, status := none,
    acquisition_cost := none }

/-- Concrete fixture for C10: an on_trip vehicle and a maintenance record
posted directly with status completed and no completed_date. -/
def vC10 : Vehicle :=
  { id := 1, capacity_kg := 10, odometer_km := 0, status := VehicleStatus.on_trip,
    acquisition_cost := 0 }

def sC10 : FleetState :=
  { vehicles := [vC10], drivers := [], trips := [], fuel_logs := [], maintenances := [],
    today := 42 }

def mC10 : Maintenance :=
  { id := 1, vehicle_id := 1, status := MaintStatus.completed, cost := 0,
    completed_date := none }

/-- A filtered bulk update (`filter(pk=i).update(...)`) leaves the row with
id `i` transformed by `f` when looked up again. -/
theorem find?_upd_self {α : Type} (getId : α → Nat) (f : α → α) (i : Nat)
    (hid : ∀ x, getId x = i → getId (f x) = i) (xs : List α) :
    (xs.map (fun x => if getId x == i then f x else x)).find? (fun y => getId y == i)
      = (xs.find? (fun y => getId y == i)).map f := by
  induction xs with
  | nil => rfl
  | cons x tl ih =>
    simp only [List.map_cons, List.find?_cons]
    by_cases h : getId x = i
    · have hb : (getId x == i) = true := beq_iff_eq.mpr h
      have hbf : (getId (f x) == i) = true := beq_iff_eq.mpr (hid x h)
      rw [if_pos hb, hbf, hb]
      rfl
    · have hb : (getId x == i) = false := beq_eq_false_iff_ne.mpr h
      rw [if_neg (by simp [hb]), hb]
      exact ih

/-- A filtered bulk update at id `i` does not disturb the lookup of a
different id `j`. -/
theorem find?_upd_other {α : Type} (getId : α → Nat) (f : α → α) (i j : Nat)
    (hij : j ≠ i) (hid : ∀ x, getId x = i → getId (f x) = i) (xs : List α) :
    (xs.map (fun x => if getId x == i then f x else x)).find? (fun y => getId y == j)
      = xs.find? (fun y => getId y == j) := by
  induction xs with
  | nil => rfl
  | cons x tl ih =>
    simp only [List.map_cons, List.find?_cons]
    by_cases h : getId x = i
    · have hb : (getId x == i) = true := beq_iff_eq.mpr h
      have h1 : (getId (f x) == j) = false :=
        beq_eq_false_iff_ne.mpr (by rw [hid x h]; exact fun hh => hij hh.symm)
      have h2 : (getId x == j) = false :=
        beq_eq_false_iff_ne.mpr (by rw [h]; exact fun hh => hij hh.symm)
      rw [if_pos hb, h1, h2]
      exact ih
    · have hb : (getId x == i) = false := beq_eq_false_iff_ne.mpr h
      rw [if_neg (by simp [hb])]
      by_cases h3 : getId x = j
      · rw [beq_iff_eq.mpr h3]
      · rw [beq_eq_false_iff_ne.mpr h3]
        exact ih

/-- A successful id lookup returns a row carrying that id. -/
theorem find?_id {α : Type} (getId : α → Nat) (i : Nat) {xs : List α} {x : α}
    (h : xs.find? (fun y => getId y == i) = some x) : getId x = i := by
  have hp := List.find?_some h
  simpa using hp

theorem findVehicleIn_setStatus_self (vs : List Vehicle) (vid : Nat) (st : VehicleStatus) :
    findVehicleIn (setVehicleStatus vs vid st) vid
      = (findVehicleIn vs vid).map (fun v => { v with status := st }) :=
  find?_upd_self Vehicle.id (fun v => { v with status := st }) vid (fun _ hx => hx) vs

theorem findVehicleIn_setStatus_other (vs : List Vehicle) (vid j : Nat) (st : VehicleStatus)
    (hj : j ≠ vid) :
    findVehicleIn (setVehicleStatus vs vid st) j = findVehicleIn vs j :=
  find?_upd_other Vehicle.id (fun v => { v with status := st }) vid j hj (fun _ hx => hx) vs

theorem findDriverIn_setStatus_self (ds : List Driver) (did : Nat) (st : DriverStatus) :
    findDriverIn (setDriverStatus ds did st) did
      = (findDriverIn ds did).map (fun d => { d with status := st }) :=
  find?_upd_self Driver.id (fun d => { d with status := st }) did (fun _ hx => hx) ds

theorem findDriverIn_setStatus_other (ds : List Driver) (did j : Nat) (st : DriverStatus)
    (hj : j ≠ did) :
    findDriverIn (setDriverStatus ds did st) j = findDriverIn ds j :=
  find?_upd_other Driver.id (fun d => { d with status := st }) did j hj (fun _ hx => hx) ds

theorem findTripIn_upsert_self (ts : List Trip) (t : Trip) :
    findTripIn (upsertTrip ts t false) t.id = (findTripIn ts t.id).map (fun _ => t) :=
  find?_upd_self Trip.id (fun _ => t) t.id (fun _ _ => rfl) ts

theorem findTripIn_upsert_other (ts : List Trip) (t : Trip) (j : Nat) (hj : j ≠ t.id) :
    findTripIn (upsertTrip ts t false) j = findTripIn ts j :=
  find?_upd_other Trip.id (fun _ => t) t.id j hj (fun _ _ => rfl) ts

theorem findTripIn_stamp_self (ts : List Trip) (tid : Nat) (d : Int) :
    findTripIn (stampTripCompleted ts tid d) tid
      = (findTripIn ts tid).map (fun t => { t with completed_date := some d }) :=
  find?_upd_self Trip.id (fun t => { t with completed_date := some d }) tid (fun _ hx => hx) ts

theorem findMaintIn_stamp_self (ms : List Maintenance) (mid : Nat) (d : Int) :
    findMaintIn (stampMaintCompleted ms mid d) mid
      = (findMaintIn ms mid).map (fun m => { m with completed_date := some d }) :=
  find?_upd_self Maintenance.id (fun m => { m with completed_date := some d }) mid
    (fun _ hx => hx) ms

theorem findVehicleIn_setVehicle_self (vs : List Vehicle) (v : Vehicle) :
    findVehicleIn (setVehicle vs v) v.id = (findVehicleIn vs v.id).map (fun _ => v) :=
  find?_upd_self Vehicle.id (fun _ => v) v.id (fun _ _ => rfl) vs

theorem findVehicleIn_setVehicle_other (vs : List Vehicle) (v : Vehicle) (j : Nat)
    (hj : j ≠ v.id) :
    findVehicleIn (setVehicle vs v) j = findVehicleIn vs j :=
  find?_upd_other Vehicle.id (fun _ => v) v.id j hj (fun _ _ => rfl) vs

theorem findDriverIn_setDriver_self (ds : List Driver) (d : Driver) :
    findDriverIn (setDriver ds d) d.id = (findDriverIn ds d.id).map (fun _ => d) :=
  find?_upd_self Driver.id (fun _ => d) d.id (fun _ _ => rfl) ds

theorem findDriverIn_setDriver_at (ds : List Driver) (d : Driver) (j : Nat) (hj : d.id = j) :
    findDriverIn (setDriver ds d) j = (findDriverIn ds j).map (fun _ => d) := by
  subst hj
  exact findDriverIn_setDriver_self ds d

theorem findVehicleIn_setVehicle_at (vs : List Vehicle) (v : Vehicle) (j : Nat)
    (hj : v.id = j) :
    findVehicleIn (setVehicle vs v) j = (findVehicleIn vs j).map (fun _ => v) := by
  subst hj
  exact findVehicleIn_setVehicle_self vs v

theorem findTripIn_upsert_at (ts : List Trip) (t : Trip) (j : Nat) (hj : t.id = j) :
    findTripIn (upsertTrip ts t false) j = (findTripIn ts j).map (fun _ => t) := by
  subst hj
  exact findTripIn_upsert_self ts t

/-- Inserting a maintenance row with a fresh id makes it retrievable. -/
theorem findMaintIn_append_fresh (ms : List Maintenance) (m : Maintenance)
    (hfresh : ∀ r ∈ ms, r.id ≠ m.id) :
    findMaintIn (upsertMaint ms m true) m.id = some m := by
  have hnone : ms.find? (fun y => y.id == m.id) = none :=
    List.find?_eq_none.mpr (fun x hx => by simpa using hfresh x hx)
  show (ms ++ [m]).find? (fun y => y.id == m.id) = some m
  rw [List.find?_append, hnone]
  simp

/-- `Trip.save` on a stored dispatched trip saved as completed: the clean
passes when the cargo fits, and the completed cascade runs. -/
theorem tripSave_completes (s : FleetState) (u : Trip) (v : Vehicle) (d : Driver)
    (hu : u.status = TripStatus.completed)
    (hv : findVehicle s u.vehicle_id = some v)
    (hd : findDriver s u.driver_id = some d)
    (hold : (findTrip s u.id).map Trip.status = some TripStatus.dispatched)
    (hcargo : u.cargo_weight_kg ≤ v.capacity_kg) :
    tripSave s u false = Except.ok (completedCascade s u) := by
  have hclean : tripClean s (some u.id) u = none := by
    simp only [tripClean, hv, hd]
    have h1 : ¬(u.cargo_weight_kg ≠ 0 ∧ u.cargo_weight_kg > v.capacity_kg) :=
      fun hc => absurd hc.2 (not_lt.mpr hcargo)
    rw [if_neg h1, if_neg (by simp [hu]), if_neg (by simp [hu]), if_neg (by simp [hu])]
  simp only [tripSave, Bool.false_eq_true, if_false, hclean, completedCascade]
  have hC2 : ¬(u.status = TripStatus.dispatched
      ∧ Option.map Trip.status (findTrip s u.id) ≠ some TripStatus.dispatched) := by
    simp [hu]
  rw [if_pos ⟨Or.inl hu, hold⟩, if_pos hu, if_neg hC2]

/-- Lookups in the completed-cascade state. -/
theorem completedCascade_lookups (s : FleetState) (u : Trip) (v : Vehicle) (d : Driver)
    (hv : findVehicle s u.vehicle_id = some v)
    (hd : findDriver s u.driver_id = some d)
    (ht : (findTrip s u.id).isSome = true) :
    findVehicle (completedCascade s u) u.vehicle_id
      = some { v with status := VehicleStatus.available }
    ∧ findDriver (completedCascade s u) u.driver_id
      = some { d with status := DriverStatus.off_duty }
    ∧ (findTrip (completedCascade s u) u.id).map Trip.completed_date
      = some (some s.today) := by
  refine ⟨?_, ?_, ?_⟩
  · show findVehicleIn (setVehicleStatus s.vehicles u.vehicle_id VehicleStatus.available)
      u.vehicle_id = _
    rw [findVehicleIn_setStatus_self,
      show findVehicleIn s.vehicles u.vehicle_id = some v from hv]
    rfl
  · show findDriverIn (setDriverStatus s.drivers u.driver_id DriverStatus.off_duty)
      u.driver_id = _
    rw [findDriverIn_setStatus_self,
      show findDriverIn s.drivers u.driver_id = some d from hd]
    rfl
  · show (findTripIn (stampTripCompleted (upsertTrip s.trips u false) u.id s.today)
      u.id).map Trip.completed_date = _
    rw [findTripIn_stamp_self, findTripIn_upsert_self]
    obtain ⟨t0, ht0⟩ := Option.isSome_iff_exists.mp ht
    rw [show findTripIn s.trips u.id = some t0 from ht0]
    rfl

/-- `Trip.clean` accepts a dispatch when the cargo fits, the driver is
compliant, the vehicle is not in_shop/retired and no other trip on the
vehicle is dispatched. -/
theorem tripClean_dispatch_ok (s : FleetState) (u : Trip) (v : Vehicle) (d : Driver)
    (hu : u.status = TripStatus.dispatched)
    (hv : findVehicle s u.vehicle_id = some v)
    (hd : findDriver s u.driver_id = some d)
    (hshop : v.status ≠ VehicleStatus.in_shop)
    (hret : v.status ≠ VehicleStatus.retired)
    (hfree : ∀ w ∈ s.trips, w.vehicle_id = u.vehicle_id → w.status ≠ TripStatus.dispatched)
    (hlic : s.today ≤ d.license_expiry)
    (hsus : d.status ≠ DriverStatus.suspended)
    (hcargo : u.cargo_weight_kg ≤ v.capacity_kg) :
    tripClean s (some u.id) u = none := by
  simp only [tripClean, hv, hd]
  have h1 : ¬(u.cargo_weight_kg ≠ 0 ∧ u.cargo_weight_kg > v.capacity_kg) :=
    fun hc => absurd hc.2 (not_lt.mpr hcargo)
  have h2 : ¬((u.status = TripStatus.draft ∨ u.status = TripStatus.dispatched)
      ∧ d.license_expiry < s.today) :=
    fun hc => absurd hc.2 (not_lt.mpr hlic)
  have h3 : ¬((u.status = TripStatus.draft ∨ u.status = TripStatus.dispatched)
      ∧ d.status = DriverStatus.suspended) :=
    fun hc => hsus hc.2
  rw [if_neg h1, if_neg h2, if_neg h3, if_pos hu]
  by_cases hon : v.status = VehicleStatus.on_trip
  · rw [if_pos ⟨hon, rfl⟩]
    have hany : ¬(s.trips.any (fun w => w.vehicle_id == u.vehicle_id
        && w.status == TripStatus.dispatched && some w.id != some u.id) = true) := by
      intro hany
      obtain ⟨w, hw, hp⟩ := List.any_eq_true.mp hany
      have hAB := (Bool.and_eq_true_iff.mp hp).1
      have hA := (Bool.and_eq_true_iff.mp hAB).1
      have hB := (Bool.and_eq_true_iff.mp hAB).2
      exact hfree w hw (by simpa using hA) (by simpa using hB)
    rw [if_neg hany]
  · rw [if_neg (fun hc => hon hc.1), if_neg (fun hc => hc.elim hshop hret)]

/-- `Trip.save` on a stored non-dispatched trip saved as dispatched: the
dispatch cascade runs. -/
theorem tripSave_dispatches (s : FleetState) (u : Trip)
    (hu : u.status = TripStatus.dispatched)
    (hclean : tripClean s (some u.id) u = none)
    (hold : Option.map Trip.status (findTrip s u.id) ≠ some TripStatus.dispatched) :
    tripSave s u false = Except.ok (dispatchedCascade s u) := by
  simp only [tripSave, Bool.false_eq_true, if_false, hclean, dispatchedCascade]
  have hC3 : ¬((u.status = TripStatus.completed ∨ u.status = TripStatus.cancelled)
      ∧ Option.map Trip.status (findTrip s u.id) = some TripStatus.dispatched) := by
    simp [hu]
  rw [if_neg hC3, if_pos ⟨hu, hold⟩]

/-- Dispatching a draft trip against an on_trip vehicle that already carries
another dispatched trip fails with VehicleBusy, provided the trip passes the
earlier cargo and driver-compliance checks. -/
theorem dispatch_blocked_busy (s : FleetState) (b : Trip) (v : Vehicle) (db : Driver)
    (hb : findTrip s b.id = some b)
    (hbdraft : b.status = TripStatus.draft)
    (hv : findVehicle s b.vehicle_id = some v)
    (hon : v.status = VehicleStatus.on_trip)
    (hd : findDriver s b.driver_id = some db)
    (hlic : s.today ≤ db.license_expiry)
    (hsus : db.status ≠ DriverStatus.suspended)
    (hcargo : b.cargo_weight_kg ≤ v.capacity_kg)
    (hexists : ∃ w ∈ s.trips, w.vehicle_id = b.vehicle_id ∧ w.status = TripStatus.dispatched
      ∧ w.id ≠ b.id) :
    dispatchTrip s b.id = Except.error FleetError.VehicleBusy := by
  simp only [dispatchTrip, hb]
  rw [if_neg (by simp [hbdraft])]
  have hclean : tripClean s (some b.id) { b with status := TripStatus.dispatched }
      = some FleetError.VehicleBusy := by
    simp only [tripClean, hv, hd]
    have h1 : ¬(b.cargo_weight_kg ≠ 0 ∧ b.cargo_weight_kg > v.capacity_kg) :=
      fun hc => absurd hc.2 (not_lt.mpr hcargo)
    have h2 : ¬((TripStatus.dispatched = TripStatus.draft ∨ True)
        ∧ db.license_expiry < s.today) :=
      fun hc => absurd hc.2 (not_lt.mpr hlic)
    have h3 : ¬((TripStatus.dispatched = TripStatus.draft ∨ True)
        ∧ db.status = DriverStatus.suspended) :=
      fun hc => hsus hc.2
    rw [if_neg h1, if_neg h2, if_neg h3, if_pos trivial, if_pos ⟨hon, rfl⟩]
    have hany : s.trips.any (fun w => w.vehicle_id == b.vehicle_id
        && w.status == TripStatus.dispatched && some w.id != some b.id) = true := by
      obtain ⟨w, hw, hwv, hwst, hwid⟩ := hexists
      refine List.any_eq_true.mpr ⟨w, hw, ?_⟩
      simp [hwv, hwst, hwid]
    rw [if_pos hany]
  simp only [tripSave, Bool.false_eq_true, if_false, hclean]

/-- C8: DriverViewSet.suspend refuses an on_duty driver with DriverBusy and
otherwise stores status suspended; DriverViewSet.reinstate succeeds
unconditionally and stores status off_duty. -/
theorem C8_suspend_reinstate (s : FleetState) (did : Nat) (d : Driver)
    (h : findDriver s did = some d) :
    (d.status = DriverStatus.on_duty →
      suspendDriver s did = Except.error FleetError.DriverBusy)
    ∧ (d.status ≠ DriverStatus.on_duty →
      ∃ s', suspendDriver s did = Except.ok s'
        ∧ findDriver s' did = some { d with status := DriverStatus.suspended })
    ∧ (∃ s', reinstateDriver s did = Except.ok s'
        ∧ findDriver s' did = some { d with status := DriverStatus.off_duty }) := by
  have hid : d.id = did := find?_id Driver.id did h
  refine ⟨fun hon => ?_, fun hoff => ?_, ?_⟩
  · simp only [suspendDriver, h]
    rw [if_pos hon]
  · refine ⟨{ s with drivers := setDriver s.drivers { d with status := DriverStatus.suspended } },
      ?_, ?_⟩
    · simp only [suspendDriver, h]
      rw [if_neg hoff]
    · show findDriverIn (setDriver s.drivers { d with status := DriverStatus.suspended }) did
        = some { d with status := DriverStatus.suspended }
      rw [findDriverIn_setDriver_at s.drivers { d with status := DriverStatus.suspended } did hid,
        show findDriverIn s.drivers did = some d from h]
      rfl
  · refine ⟨{ s with drivers := setDriver s.drivers { d with status := DriverStatus.off_duty } },
      ?_, ?_⟩
    · simp only [reinstateDriver, h]
    · show findDriverIn (setDriver s.drivers { d with status := DriverStatus.off_duty }) did
        = some { d with status := DriverStatus.off_duty }
      rw [findDriverIn_setDriver_at s.drivers { d with status := DriverStatus.off_duty } did hid,
        show findDriverIn s.drivers did = some d from h]
      rfl

/-- Witness for C8 at a concrete off_duty driver. -/
theorem C8_suspend_reinstate_witness :
    dC8.status ≠ DriverStatus.on_duty
    ∧ (∃ s', suspendDriver sC8 7 = Except.ok s'
        ∧ findDriver s' 7 = some { dC8 with status := DriverStatus.suspended })
    ∧ (∃ s', reinstateDriver sC8 7 = Except.ok s'
        ∧ findDriver s' 7 = some { dC8 with status := DriverStatus.off_duty }) := by
  have h : findDriver sC8 7 = some dC8 := by decide
  have hmain := C8_suspend_reinstate sC8 7 dC8 h
  exact ⟨by decide, hmain.2.1 (by decide), hmain.2.2⟩

/-- C9: roi is 0 when the acquisition cost is 0 (the data model stores an
unset cost as 0); otherwise it equals round(((total completed-trip revenue −
total fuel cost − total maintenance cost) / acquisition_cost) × 100, 2). -/
theorem C9_roi_formula (s : FleetState) (v : Vehicle) :
    roi s v = if v.acquisition_cost = 0 then 0
      else round2 ((totalRevenue s v.id - totalFuelCost s v.id - totalMaintenanceCost s v.id)
        / v.acquisition_cost * 100) := by
  rw [roi, totalOperationalCost, sub_add_eq_sub_sub]

/-- C2 (code bug): vehicle 1 already carries one dispatched trip, yet a POST
creating a second trip directly with initial status dispatched passes both
serializer validation and `Trip.clean` (whose duplicate-dispatch query is
guarded by `self.pk`) and leaves two dispatched trips on the vehicle. -/
theorem C2_direct_create_second_dispatched :
    dispatchedCount sC2 1 = 1
    ∧ (tripCreate sC2 tC2).toOption.map (fun s => dispatchedCount s 1) = some 2 := by
  exact ⟨by decide, by decide⟩

/-- C3 counterexample: an ordinary field update (PATCH) moves a completed
trip back to draft; neither the serializer nor `Trip.save` raises
InvalidTransition. -/
theorem C3_cex_update_completed_to_draft :
    tC3.status = TripStatus.completed
    ∧ (tripUpdate sC3 1 updC3).toOption.bind (fun s => (findTrip s 1).map Trip.status)
        = some TripStatus.draft := by
  exact ⟨by decide, by decide⟩

/-- C3 (amended): through the dedicated dispatch/complete/cancel operations,
every transition out of completed, every dispatch/complete of a cancelled
trip, and the direct draft→completed transition fail with InvalidTransition,
before any entity is written. -/
theorem C3_dedicated_actions_reject_illegal (s : FleetState) (tid : Nat) (t : Trip)
    (req : TripCompleteRequest) (h : findTrip s tid = some t) :
    (t.status ≠ TripStatus.draft →
      dispatchTrip s tid = Except.error FleetError.InvalidTransition)
    ∧ (t.status ≠ TripStatus.dispatched →
      completeTrip s tid req = Except.error FleetError.InvalidTransition)
    ∧ (t.status = TripStatus.completed →
      cancelTrip s tid = Except.error FleetError.InvalidTransition) := by
  refine ⟨fun hd => ?_, fun hd => ?_, fun hd => ?_⟩
  · simp only [dispatchTrip, h]
    rw [if_pos hd]
  · simp only [completeTrip, h]
    rw [if_pos hd]
  · simp only [cancelTrip, h]
    rw [if_pos hd]

/-- Witness for C3 at a concrete completed trip. -/
theorem C3_dedicated_actions_reject_illegal_witness :
    tC3.status = TripStatus.completed
    ∧ dispatchTrip sC3 1 = Except.error FleetError.InvalidTransition
    ∧ completeTrip sC3 1 { distance_km := none, revenue := none, completed_date := none }
        = Except.error FleetError.InvalidTransition
    ∧ cancelTrip sC3 1 = Except.error FleetError.InvalidTransition := by
  have h : findTrip sC3 1 = some tC3 := by decide
  have hmain := C3_dedicated_actions_reject_illegal sC3 1 tC3
    { distance_km := none, revenue := none, completed_date := none } h
  exact ⟨by decide, hmain.1 (by decide), hmain.2.1 (by decide), hmain.2.2 (by decide)⟩

/-- C5 counterexample: for an overweight trip that is not in draft, dispatch
fails with InvalidTransition, not CapacityExceeded. -/
theorem C5_cex_nondraft_overweight :
    (findTrip sC5 1).map Trip.cargo_weight_kg = some 500
    ∧ (findVehicle sC5 1).map Vehicle.capacity_kg = some 300
    ∧ dispatchTrip sC5 1 = Except.error FleetError.InvalidTransition := by
  exact ⟨by decide, by decide, by rfl⟩

/-- C5 (amended): for a draft trip whose (necessarily nonzero) cargo exceeds
its vehicle's nonnegative capacity, dispatch fails with CapacityExceeded —
the first check of `Trip.clean` — before any entity is written. -/
theorem C5_draft_overweight_dispatch (s : FleetState) (tid : Nat) (t : Trip)
    (v : Vehicle) (d : Driver)
    (h : findTrip s tid = some t)
    (hdraft : t.status = TripStatus.draft)
    (hv : findVehicle s t.vehicle_id = some v)
    (hd : findDriver s t.driver_id = some d)
    (hcap : 0 ≤ v.capacity_kg)
    (hover : t.cargo_weight_kg > v.capacity_kg) :
    dispatchTrip s tid = Except.error FleetError.CapacityExceeded := by
  have hne : t.cargo_weight_kg ≠ 0 := by
    intro h0
    rw [h0] at hover
    exact absurd hcap (not_le.mpr hover)
  simp only [dispatchTrip, h]
  rw [if_neg (by simp [hdraft])]
  simp only [tripSave, tripClean, hv, hd]
  rw [if_pos ⟨hne, hover⟩]

/-- Witness for C5 at a concrete overweight draft trip. -/
theorem C5_draft_overweight_dispatch_witness :
    tC5w.status = TripStatus.draft ∧ tC5w.cargo_weight_kg > vC5w.capacity_kg
    ∧ dispatchTrip sC5w 1 = Except.error FleetError.CapacityExceeded := by
  refine ⟨by decide, by decide, ?_⟩
  exact C5_draft_overweight_dispatch sC5w 1 tC5w vC5w dC5w (by decide) (by decide)
    (by decide) (by decide) (by decide) (by decide)

/-- C6 (code bug): retired is not terminal — creating a pending maintenance
record for a retired vehicle moves the vehicle to in_shop. -/
theorem C6_maintenance_moves_retired_vehicle :
    (findVehicle sC6 1).map Vehicle.status = some VehicleStatus.retired
    ∧ (findVehicle (maintenanceCreate sC6 mC6) 1).map Vehicle.status
        = some VehicleStatus.in_shop := by
  exact ⟨by decide, by decide⟩

/-- One vehicle-update request never decreases any stored odometer. -/
theorem applyVehicleUpdateOp_mono (s : FleetState) (op : Nat × VehicleUpdateData)
    (vid : Nat) (v : Vehicle) (h : findVehicle s vid = some v) :
    ∃ v', findVehicle (applyVehicleUpdateOp s op) vid = some v'
      ∧ v.odometer_km ≤ v'.odometer_km := by
  obtain ⟨wid, d⟩ := op
  cases hwf : findVehicle s wid with
  | none =>
    refine ⟨v, ?_, le_refl _⟩
    simp only [applyVehicleUpdateOp, vehicleUpdate, hwf]
    exact h
  | some w =>
    have hwid : w.id = wid := find?_id Vehicle.id wid hwf
    by_cases hvw : vid = wid
    · have hvv : v = w := by
        rw [hvw] at h
        exact Option.some.inj (h.symm.trans hwf)
      cases hodo : d.odometer_km with
      | some o =>
        by_cases hlt : o < w.odometer_km
        · refine ⟨v, ?_, le_refl _⟩
          simp only [applyVehicleUpdateOp, vehicleUpdate, hwf, hodo]
          rw [if_pos hlt]
          exact h
        · refine ⟨applyVehicleUpdate w d, ?_, ?_⟩
          · simp only [applyVehicleUpdateOp, vehicleUpdate, hwf, hodo]
            rw [if_neg hlt]
            show findVehicleIn (setVehicle s.vehicles (applyVehicleUpdate w d)) vid
              = some (applyVehicleUpdate w d)
            rw [findVehicleIn_setVehicle_at s.vehicles (applyVehicleUpdate w d) vid
                (hwid.trans hvw.symm),
              show findVehicleIn s.vehicles vid = some v from h]
            rfl
          · rw [hvv]
            show w.odometer_km ≤ (applyVehicleUpdate w d).odometer_km
            simp only [applyVehicleUpdate, hodo]
            exact not_lt.mp hlt
      | none =>
        refine ⟨applyVehicleUpdate w d, ?_, ?_⟩
        · simp only [applyVehicleUpdateOp, vehicleUpdate, hwf, hodo]
          show findVehicleIn (setVehicle s.vehicles (applyVehicleUpdate w d)) vid
            = some (applyVehicleUpdate w d)
          rw [findVehicleIn_setVehicle_at s.vehicles (applyVehicleUpdate w d) vid
              (hwid.trans hvw.symm),
            show findVehicleIn s.vehicles vid = some v from h]
          rfl
        · rw [hvv]
          show w.odometer_km ≤ (applyVehicleUpdate w d).odometer_km
          simp only [applyVehicleUpdate, hodo]
          exact le_refl _
    · have hne : vid ≠ (applyVehicleUpdate w d).id :=
        fun hh => hvw (hh.trans hwid)
      refine ⟨v, ?_, le_refl _⟩
      cases hodo : d.odometer_km with
      | some o =>
        by_cases hlt : o < w.odometer_km
        · simp only [applyVehicleUpdateOp, vehicleUpdate, hwf, hodo]
          rw [if_pos hlt]
          exact h
        · simp only [applyVehicleUpdateOp, vehicleUpdate, hwf, hodo]
          rw [if_neg hlt]
          show findVehicleIn (setVehicle s.vehicles (applyVehicleUpdate w d)) vid = some v
          rw [findVehicleIn_setVehicle_other s.vehicles (applyVehicleUpdate w d) vid hne]
          exact h
      | none =>
        simp only [applyVehicleUpdateOp, vehicleUpdate, hwf, hodo]
        show findVehicleIn (setVehicle s.vehicles (applyVehicleUpdate w d)) vid = some v
        rw [findVehicleIn_setVehicle_other s.vehicles (applyVehicleUpdate w d) vid hne]
        exact h

/-- Odometer monotonicity extends to any sequence of update requests. -/
theorem runVehicleUpdates_mono (ops : List (Nat × VehicleUpdateData)) :
    ∀ (s : FleetState) (vid : Nat) (v : Vehicle), findVehicle s vid = some v →
      ∃ v', findVehicle (runVehicleUpdates s ops) vid = some v'
        ∧ v.odometer_km ≤ v'.odometer_km := by
  induction ops with
  | nil => exact fun s vid v h => ⟨v, h, le_refl _⟩
  | cons op tl ih =>
    intro s vid v h
    obtain ⟨v1, h1, hle1⟩ := applyVehicleUpdateOp_mono s op vid v h
    obtain ⟨v', h', hle'⟩ := ih (applyVehicleUpdateOp s op) vid v1 h1
    exact ⟨v', h', le_trans hle1 hle'⟩

/-- C7: across any sequence of vehicle updates, the stored odometer_km never
decreases, and any single update that tries to set it below the current
stored value is rejected before any write. -/
theorem C7_odometer_monotone (s : FleetState) (vid : Nat) (v : Vehicle)
    (h : findVehicle s vid = some v)
    (ops : List (Nat × VehicleUpdateData)) (v' : Vehicle)
    (h' : findVehicle (runVehicleUpdates s ops) vid = some v') :
    v.odometer_km ≤ v'.odometer_km
    ∧ ∀ (d : VehicleUpdateData) (o : ℚ), d.odometer_km = some o → o < v.odometer_km →
      vehicleUpdate s vid d = Except.error FleetError.OdometerDecrease := by
  constructor
  · obtain ⟨v'', h'', hle⟩ := runVehicleUpdates_mono ops s vid v h
    rw [h'] at h''
    rw [Option.some.inj h'']
    exact hle
  · intro d o hdo hlt
    simp only [vehicleUpdate, h, hdo]
    rw [if_pos hlt]

/-- Witness for C7 at a concrete vehicle and update sequence. -/
theorem C7_odometer_monotone_witness :
    vC7.odometer_km ≤ vC7fin.odometer_km
    ∧ vehicleUpdate sC7 1 updC7back = Except.error FleetError.OdometerDecrease := by
  have hmain := C7_odometer_monotone sC7 1 vC7 (by decide) opsC7 vC7fin (by decide)
  exact ⟨hmain.1, hmain.2 updC7back 50 (by decide) (by decide)⟩

/-- C10: creating a maintenance record whose initial status is already
completed never sends the vehicle to the shop: whatever the vehicle's prior
status (including on_trip and retired), the vehicle is set to available, and
completed_date is stamped with the current date exactly when the payload
left it unset. -/
theorem C10_create_completed_maintenance (s : FleetState) (m : Maintenance) (v : Vehicle)
    (hm : m.status = MaintStatus.completed)
    (hv : findVehicle s m.vehicle_id = some v)
    (hfresh : ∀ r ∈ s.maintenances, r.id ≠ m.id) :
    findVehicle (maintenanceCreate s m) m.vehicle_id
      = some { v with status := VehicleStatus.available }
    ∧ (findMaint (maintenanceCreate s m) m.id).map Maintenance.completed_date
      = some (if m.completed_date = none then some s.today else m.completed_date) := by
  simp only [maintenanceCreate, maintenanceSave, if_true]
  have hC3 : m.status = MaintStatus.completed
      ∧ (none : Option MaintStatus) ≠ some MaintStatus.completed := ⟨hm, by simp⟩
  have hC2 : ¬(True ∧ (m.status = MaintStatus.pending ∨ m.status = MaintStatus.in_progress)) := by
    simp [hm]
  rw [if_pos hC3, if_neg hC2]
  cases hcd : m.completed_date with
  | none =>
    rw [if_pos rfl]
    constructor
    · show findVehicleIn (setVehicleStatus s.vehicles m.vehicle_id VehicleStatus.available)
        m.vehicle_id = some { v with status := VehicleStatus.available }
      rw [findVehicleIn_setStatus_self,
        show findVehicleIn s.vehicles m.vehicle_id = some v from hv]
      rfl
    · show (findMaintIn (stampMaintCompleted (upsertMaint s.maintenances m true) m.id s.today)
          m.id).map Maintenance.completed_date = _
      rw [findMaintIn_stamp_self, findMaintIn_append_fresh s.maintenances m hfresh]
      simp
  | some dt =>
    rw [if_neg (by simp [hcd])]
    constructor
    · show findVehicleIn (setVehicleStatus s.vehicles m.vehicle_id VehicleStatus.available)
        m.vehicle_id = some { v with status := VehicleStatus.available }
      rw [findVehicleIn_setStatus_self,
        show findVehicleIn s.vehicles m.vehicle_id = some v from hv]
      rfl
    · show (findMaintIn (upsertMaint s.maintenances m true) m.id).map
          Maintenance.completed_date = _
      rw [findMaintIn_append_fresh s.maintenances m hfresh]
      simp [hcd]

/-- Witness for C10: an on_trip vehicle whose maintenance record is created
directly as completed with no completed_date supplied. -/
theorem C10_create_completed_maintenance_witness :
    mC10.status = MaintStatus.completed
    ∧ vC10.status = VehicleStatus.on_trip
    ∧ findVehicle (maintenanceCreate sC10 mC10) 1
        = some { vC10 with status := VehicleStatus.available }
    ∧ (findMaint (maintenanceCreate sC10 mC10) 1).map Maintenance.completed_date
        = some (some 42) := by
  have hmain := C10_create_completed_maintenance sC10 mC10 vC10 (by decide) (by decide)
    (by decide)
  refine ⟨by decide, by decide, hmain.1, ?_⟩
  have h2 := hmain.2
  simpa [mC10, sC10] using h2

/-- C4 counterexample: a dispatched trip whose cargo exceeds its vehicle's
capacity (reachable, since a vehicle update can shrink capacity after
dispatch) makes the complete operation fail with CapacityExceeded instead of
freeing the vehicle and driver. -/
theorem C4_cex_overweight_dispatched :
    tC4.status = TripStatus.dispatched
    ∧ tC4.cargo_weight_kg > vC4.capacity_kg
    ∧ completeTrip sC4 1 reqC4none = Except.error FleetError.CapacityExceeded := by
  exact ⟨by decide, by decide, by rfl⟩

/-- C4 (amended): completing a dispatched trip whose cargo still fits the
vehicle frees the vehicle and driver and stamps the stored completed_date
with the current date, whatever completed_date the client supplies (the view
never reads that key); completing any trip not in dispatched fails with
InvalidTransition. -/
theorem C4_complete_dispatched (s : FleetState) (tid : Nat) (t : Trip) (v : Vehicle)
    (d : Driver) (req : TripCompleteRequest)
    (h : findTrip s tid = some t)
    (hst : t.status = TripStatus.dispatched)
    (hv : findVehicle s t.vehicle_id = some v)
    (hd : findDriver s t.driver_id = some d)
    (hcargo : t.cargo_weight_kg ≤ v.capacity_kg)
    (s2 : FleetState) (tid2 : Nat) (t2 : Trip) (req2 : TripCompleteRequest)
    (h2 : findTrip s2 tid2 = some t2)
    (h2st : t2.status ≠ TripStatus.dispatched) :
    (∃ s', completeTrip s tid req = Except.ok s'
      ∧ findVehicle s' t.vehicle_id = some { v with status := VehicleStatus.available }
      ∧ findDriver s' t.driver_id = some { d with status := DriverStatus.off_duty }
      ∧ (findTrip s' tid).map Trip.completed_date = some (some s.today))
    ∧ completeTrip s2 tid2 req2 = Except.error FleetError.InvalidTransition := by
  constructor
  · have htid : t.id = tid := find?_id Trip.id tid h
    subst htid
    have hold : (findTrip s t.id).map Trip.status = some TripStatus.dispatched := by
      rw [h]
      simp [hst]
    have key : ∀ u : Trip, u.id = t.id → u.vehicle_id = t.vehicle_id →
        u.driver_id = t.driver_id → u.cargo_weight_kg = t.cargo_weight_kg →
        u.status = TripStatus.completed →
        tripSave s u false = Except.ok (completedCascade s u)
        ∧ findVehicle (completedCascade s u) t.vehicle_id
            = some { v with status := VehicleStatus.available }
        ∧ findDriver (completedCascade s u) t.driver_id
            = some { d with status := DriverStatus.off_duty }
        ∧ (findTrip (completedCascade s u) t.id).map Trip.completed_date
            = some (some s.today) := by
      intro u hid hvid hdid hcw hstat
      have hv' : findVehicle s u.vehicle_id = some v := by rw [hvid]; exact hv
      have hd' : findDriver s u.driver_id = some d := by rw [hdid]; exact hd
      have hold' : (findTrip s u.id).map Trip.status = some TripStatus.dispatched := by
        rw [hid]; exact hold
      have hcargo' : u.cargo_weight_kg ≤ v.capacity_kg := by rw [hcw]; exact hcargo
      have hsome : (findTrip s u.id).isSome = true := by
        rw [hid, h]; rfl
      have hlook := completedCascade_lookups s u v d hv' hd' hsome
      exact ⟨tripSave_completes s u v d hstat hv' hd' hold' hcargo',
        hvid ▸ hlook.1, hdid ▸ hlook.2.1, hid ▸ hlook.2.2⟩
    obtain ⟨rdk, rrev, rcd⟩ := req
    cases rdk with
    | none =>
      cases rrev with
      | none =>
        have hk := key { t with status := TripStatus.completed } rfl rfl rfl rfl rfl
        refine ⟨completedCascade s { t with status := TripStatus.completed },
          ?_, hk.2.1, hk.2.2.1, hk.2.2.2⟩
        simp only [completeTrip, h]
        rw [if_neg (fun hh => hh hst)]
        exact hk.1
      | some rv =>
        have hk := key { t with revenue := rv, status := TripStatus.completed }
          rfl rfl rfl rfl rfl
        refine ⟨completedCascade s { t with revenue := rv, status := TripStatus.completed },
          ?_, hk.2.1, hk.2.2.1, hk.2.2.2⟩
        simp only [completeTrip, h]
        rw [if_neg (fun hh => hh hst)]
        exact hk.1
    | some rd =>
      cases rrev with
      | none =>
        have hk := key { t with distance_km := rd, status := TripStatus.completed }
          rfl rfl rfl rfl rfl
        refine ⟨completedCascade s { t with distance_km := rd, status := TripStatus.completed },
          ?_, hk.2.1, hk.2.2.1, hk.2.2.2⟩
        simp only [completeTrip, h]
        rw [if_neg (fun hh => hh hst)]
        exact hk.1
      | some rv =>
        have hk := key { t with distance_km := rd, revenue := rv, status := TripStatus.completed }
          rfl rfl rfl rfl rfl
        refine
          ⟨completedCascade s
              { t with distance_km := rd, revenue := rv, status := TripStatus.completed },
            ?_, hk.2.1, hk.2.2.1, hk.2.2.2⟩
        simp only [completeTrip, h]
        rw [if_neg (fun hh => hh hst)]
        exact hk.1
  · simp only [completeTrip, h2]
    rw [if_pos h2st]

/-- Witness for C4: completing a concrete dispatched trip with a request that
also tries to supply completed_date 999; the stored stamp is today (7). -/
theorem C4_complete_dispatched_witness :
    (∃ s', completeTrip sC4w 1 reqC4w = Except.ok s'
      ∧ findVehicle s' 1 = some { vC4w with status := VehicleStatus.available }
      ∧ findDriver s' 1 = some { dC4w with status := DriverStatus.off_duty }
      ∧ (findTrip s' 1).map Trip.completed_date = some (some 7))
    ∧ completeTrip sC4w 2 reqC4w = Except.error FleetError.InvalidTransition := by
  exact C4_complete_dispatched sC4w 1 tC4w vC4w dC4w reqC4w (by decide) (by decide)
    (by decide) (by decide) (by decide) sC4w 2 tC4w2 reqC4w (by decide) (by decide)

/-- C1 counterexample: a draft trip satisfying every condition of the claim
(no dispatched trip on the vehicle, vehicle available, driver compliant) is
nevertheless refused dispatch, with CapacityExceeded, because its cargo
exceeds the vehicle's capacity — a condition the claim does not mention. -/
theorem C1_cex_overweight_blocks_dispatch :
    (findTrip sC1x 1).map Trip.status = some TripStatus.draft
    ∧ (findVehicle sC1x 1).map Vehicle.status = some VehicleStatus.available
    ∧ (findDriver sC1x 1).map Driver.status = some DriverStatus.off_duty
    ∧ dispatchedCount sC1x 1 = 0
    ∧ dispatchTrip sC1x 1 = Except.error FleetError.CapacityExceeded := by
  exact ⟨by decide, by decide, by decide, by decide, by rfl⟩

/-- C1 (amended): for a draft trip whose vehicle has no dispatched trip and
is not in_shop or retired, whose driver is compliant, and whose cargo fits
the vehicle's capacity, dispatch succeeds, locking the vehicle (on_trip) and
driver (on_duty); a subsequent dispatch of a second draft trip on the same
vehicle — itself passing the cargo and driver-compliance checks — fails with
VehicleBusy. -/
theorem C1_dispatch_then_busy (s : FleetState) (tid : Nat) (t : Trip) (v : Vehicle)
    (d : Driver) (b : Trip) (db : Driver)
    (h : findTrip s tid = some t)
    (ht : t.status = TripStatus.draft)
    (hv : findVehicle s t.vehicle_id = some v)
    (hd : findDriver s t.driver_id = some d)
    (hshop : v.status ≠ VehicleStatus.in_shop)
    (hret : v.status ≠ VehicleStatus.retired)
    (hfree : ∀ w ∈ s.trips, w.vehicle_id = t.vehicle_id → w.status ≠ TripStatus.dispatched)
    (hlic : s.today ≤ d.license_expiry)
    (hsus : d.status ≠ DriverStatus.suspended)
    (hcargo : t.cargo_weight_kg ≤ v.capacity_kg)
    (hbfind : findTrip s b.id = some b)
    (hbdraft : b.status = TripStatus.draft)
    (hbveh : b.vehicle_id = t.vehicle_id)
    (hbne : b.id ≠ tid)
    (hbd : findDriver s b.driver_id = some db)
    (hblic : s.today ≤ db.license_expiry)
    (hbsus : db.status ≠ DriverStatus.suspended)
    (hbcargo : b.cargo_weight_kg ≤ v.capacity_kg) :
    ∃ s', dispatchTrip s tid = Except.ok s'
      ∧ findVehicle s' t.vehicle_id = some { v with status := VehicleStatus.on_trip }
      ∧ findDriver s' t.driver_id = some { d with status := DriverStatus.on_duty }
      ∧ (findTrip s' tid).map Trip.status = some TripStatus.dispatched
      ∧ dispatchTrip s' b.id = Except.error FleetError.VehicleBusy := by
  have htid : t.id = tid := find?_id Trip.id tid h
  subst htid
  have hclean : tripClean s (some t.id) { t with status := TripStatus.dispatched } = none :=
    tripClean_dispatch_ok s { t with status := TripStatus.dispatched } v d rfl hv hd
      hshop hret hfree hlic hsus hcargo
  have hold : Option.map Trip.status (findTrip s t.id) ≠ some TripStatus.dispatched := by
    rw [h]
    simp [ht]
  have hsave := tripSave_dispatches s { t with status := TripStatus.dispatched } rfl hclean hold
  refine ⟨dispatchedCascade s { t with status := TripStatus.dispatched }, ?_, ?_, ?_, ?_, ?_⟩
  · simp only [dispatchTrip, h]
    rw [if_neg (by simp [ht])]
    exact hsave
  · show findVehicleIn (setVehicleStatus s.vehicles t.vehicle_id VehicleStatus.on_trip)
      t.vehicle_id = _
    rw [findVehicleIn_setStatus_self,
      show findVehicleIn s.vehicles t.vehicle_id = some v from hv]
    rfl
  · show findDriverIn (setDriverStatus s.drivers t.driver_id DriverStatus.on_duty)
      t.driver_id = _
    rw [findDriverIn_setStatus_self,
      show findDriverIn s.drivers t.driver_id = some d from hd]
    rfl
  · show (findTripIn (upsertTrip s.trips { t with status := TripStatus.dispatched } false)
      t.id).map Trip.status = _
    rw [findTripIn_upsert_at s.trips { t with status := TripStatus.dispatched } t.id rfl,
      show findTripIn s.trips t.id = some t from h]
    rfl
  · have hufind : findTripIn (upsertTrip s.trips { t with status := TripStatus.dispatched }
        false) t.id = some { t with status := TripStatus.dispatched } := by
      rw [findTripIn_upsert_at s.trips { t with status := TripStatus.dispatched } t.id rfl,
        show findTripIn s.trips t.id = some t from h]
      rfl
    have humem : ({ t with status := TripStatus.dispatched } : Trip)
        ∈ (dispatchedCascade s { t with status := TripStatus.dispatched }).trips :=
      List.mem_of_find?_eq_some hufind
    have hbfind' : findTrip (dispatchedCascade s { t with status := TripStatus.dispatched })
        b.id = some b := by
      show findTripIn (upsertTrip s.trips { t with status := TripStatus.dispatched } false)
        b.id = some b
      rw [findTripIn_upsert_other s.trips { t with status := TripStatus.dispatched } b.id hbne]
      exact hbfind
    have hvfind' : findVehicle (dispatchedCascade s { t with status := TripStatus.dispatched })
        b.vehicle_id = some { v with status := VehicleStatus.on_trip } := by
      show findVehicleIn (setVehicleStatus s.vehicles t.vehicle_id VehicleStatus.on_trip)
        b.vehicle_id = _
      rw [hbveh, findVehicleIn_setStatus_self,
        show findVehicleIn s.vehicles t.vehicle_id = some v from hv]
      rfl
    have hexists : ∃ w ∈ (dispatchedCascade s { t with status := TripStatus.dispatched }).trips,
        w.vehicle_id = b.vehicle_id ∧ w.status = TripStatus.dispatched ∧ w.id ≠ b.id :=
      ⟨{ t with status := TripStatus.dispatched }, humem, hbveh.symm, rfl,
        fun hh => hbne hh.symm⟩
    by_cases hdd : b.driver_id = t.driver_id
    · have hdbd : db = d := by
        rw [hdd] at hbd
        exact Option.some.inj (hbd.symm.trans hd)
      have hdfind' : findDriver (dispatchedCascade s { t with status := TripStatus.dispatched })
          b.driver_id = some { d with status := DriverStatus.on_duty } := by
        show findDriverIn (setDriverStatus s.drivers t.driver_id DriverStatus.on_duty)
          b.driver_id = _
        rw [hdd, findDriverIn_setStatus_self,
          show findDriverIn s.drivers t.driver_id = some d from hd]
        rfl
      exact dispatch_blocked_busy _ b { v with status := VehicleStatus.on_trip }
        { d with status := DriverStatus.on_duty } hbfind' hbdraft hvfind' rfl hdfind'
        (by rw [hdbd] at hblic; exact hblic)
        (fun hh => DriverStatus.noConfusion hh) hbcargo hexists
    · have hdfind' : findDriver (dispatchedCascade s { t with status := TripStatus.dispatched })
          b.driver_id = some db := by
        show findDriverIn (setDriverStatus s.drivers t.driver_id DriverStatus.on_duty)
          b.driver_id = some db
        rw [findDriverIn_setStatus_other s.drivers t.driver_id b.driver_id
          DriverStatus.on_duty hdd]
        exact hbd
      exact dispatch_blocked_busy _ b { v with status := VehicleStatus.on_trip } db
        hbfind' hbdraft hvfind' rfl hdfind' hblic hbsus hbcargo hexists

/-- Witness for C1 at a concrete free vehicle with two draft trips. -/
theorem C1_dispatch_then_busy_witness :
    ∃ s', dispatchTrip sC1 1 = Except.ok s'
      ∧ findVehicle s' 1 = some { vC1 with status := VehicleStatus.on_trip }
      ∧ findDriver s' 1 = some { dC1 with status := DriverStatus.on_duty }
      ∧ (findTrip s' 1).map Trip.status = some TripStatus.dispatched
      ∧ dispatchTrip s' 2 = Except.error FleetError.VehicleBusy := by
  exact C1_dispatch_then_busy sC1 1 tC1 vC1 dC1 tC1b dC1 (by decide) (by decide) (by decide)
    (by decide) (by decide) (by decide) (by decide) (by decide) (by decide) (by decide)
    (by decide) (by decide) (by decide) (by decide) (by decide) (by decide) (by decide)
    (by decide)

end Fleet
